import Mathlib

/-!
Verification of the PaperCo V2 email campaign sender (`src/send.py`).

The embedding below models the template-rendering and per-recipient delivery
pipeline of `send.py`:

* templates are Jinja2 sources restricted to the interpolation fragment the
  program relies on (literal text and `\x7b\x7b name \x7d\x7d` variable
  references), compiled by `compileTemplate`, which fails on a syntax error
  exactly where Jinja2 raises `TemplateSyntaxError`;
* the environment is built with `StrictUndefined` and `autoescape=True`
  (lines 47-54), modelled by `renderTemplate` failing on an undefined
  variable and HTML-escaping every interpolated value via `htmlEscape`;
* CSV rows (`load_csv_data`, lines 56-66) are association lists from field
  name to an optional string (`none` models a Python `None` cell);
* SMTP is an oracle `SMTPBehavior`: whether session establishment
  (connect + STARTTLS + login, lines 134-136) succeeds, and the per-address
  outcome of `server.send_message`;
* `send_batch_emails` and `send_single_email` mirror the control flow of the
  methods of the same names, recording delivery outcomes, the number of
  `send_message` calls actually reached, and the process exit code
  (`sys.exit(1)` on a fatal error, 0 on normal completion).
-/

namespace PaperCo

/-- The opening curly brace character (code point 123). -/
def openBrace : Char := Char.ofNat 123

/-- The closing curly brace character (code point 125). -/
def closeBrace : Char := Char.ofNat 125

/-- A compiled template part: literal text, or an interpolated variable. -/
inductive Part where
  | lit (s : String)
  | var (name : String)
  deriving DecidableEq, Repr

/-- A compiled template is the sequence of its parts. -/
abbrev Template := List Part

/-- The variables a compiled template references. -/
def Template.vars (t : Template) : List String :=
  t.filterMap (fun p =>
    match p with
    | Part.lit _ => none
    | Part.var n => some n)

/-- Characters allowed in a Jinja2 identifier. -/
def isIdentChar (c : Char) : Bool := c.isAlpha || c.isDigit || c = '_'

/-- Drop leading whitespace. -/
def skipSpaces : List Char → List Char
  | [] => []
  | c :: cs => if c.isWhitespace then skipSpaces cs else c :: cs

/-- Scan forward to the next `\x7b\x7b` opener: returns the literal text
before it and, when an opener was found, the remaining input after it. -/
def splitOpen : List Char → List Char × Option (List Char)
  | [] => ([], none)
  | c :: cs =>
    if c = openBrace then
      match cs with
      | d :: ds =>
        if d = openBrace then ([], some ds)
        else
          let r := splitOpen cs
          (c :: r.1, r.2)
      | [] => ([c], none)
    else
      let r := splitOpen cs
      (c :: r.1, r.2)

/-- Parse the inside of an interpolation: an identifier surrounded by
optional whitespace, terminated by `\x7d\x7d`.  `none` is a syntax error. -/
def parseVar (cs : List Char) : Option (String × List Char) :=
  let cs1 := skipSpaces cs
  let id := cs1.takeWhile isIdentChar
  let cs2 := skipSpaces (cs1.dropWhile isIdentChar)
  if id.isEmpty then none
  else
    match cs2 with
    | a :: b :: rest =>
      if a = closeBrace && b = closeBrace then some (String.mk id, rest) else none
    | _ => none

/-- Fuelled compilation loop over the raw character stream. -/
def compileAux : Nat → List Char → Except String (List Part)
  | 0, _ => Except.error "template too long"
  | Nat.succ fuel, cs =>
    match splitOpen cs with
    | (litcs, none) => Except.ok [Part.lit (String.mk litcs)]
    | (litcs, some rest) =>
      match parseVar rest with
      | none => Except.error "unexpected end of template expression"
      | some (name, rest2) =>
        match compileAux fuel rest2 with
        | Except.error e => Except.error e
        | Except.ok ps => Except.ok (Part.lit (String.mk litcs) :: Part.var name :: ps)

/-- `self.env.from_string(src)` (lines 105-106 and 144-145): compile a
template source, failing with a syntax error on a malformed interpolation. -/
def compileTemplate (src : String) : Except String Template :=
  compileAux (src.data.length + 1) src.data

/-- Whether an `Except` computation failed. -/
def isErr {ε α : Type} : Except ε α → Bool
  | Except.error _ => true
  | Except.ok _ => false

/-- Escape one character the way MarkupSafe does for `autoescape=True`:
`&` `<` `>` and the two quote characters become HTML entities. -/
def escChar (c : Char) : List Char :=
  if c = '&' then "&amp;".data
  else if c = '<' then "&lt;".data
  else if c = '>' then "&gt;".data
  else if c = Char.ofNat 39 then "&#39;".data
  else if c = Char.ofNat 34 then "&#34;".data
  else [c]

/-- Escape a character stream. -/
def htmlEscapeL : List Char → List Char
  | [] => []
  | c :: cs => escChar c ++ htmlEscapeL cs

/-- HTML-escape a string (the `autoescape=True` policy of line 50). -/
def htmlEscape (s : String) : String := String.mk (htmlEscapeL s.data)

/-- A rendering failure: `StrictUndefined` (line 49) raises an
`UndefinedError` naming the offending variable. -/
inductive Rerr where
  | undefinedVar (name : String)
  deriving DecidableEq, Repr

/-- First value bound to a key in a string-valued association list. -/
def lookupKey : List (String × String) → String → Option String
  | [], _ => none
  | p :: rest, k => if p.1 == k then some p.2 else lookupKey rest k

/-- `template.render(**record)` (lines 109-110 and 148-149): interpolate the
record into the template left to right, HTML-escaping every value, failing
with `StrictUndefined` on the first variable absent from the record. -/
def renderTemplate (t : Template) (rec : List (String × String)) : Except Rerr String :=
  match t with
  | [] => Except.ok ""
  | Part.lit s :: rest =>
    match renderTemplate rest rec with
    | Except.error e => Except.error e
    | Except.ok out => Except.ok (s ++ out)
  | Part.var v :: rest =>
    match lookupKey rec v with
    | none => Except.error (Rerr.undefinedVar v)
    | some s =>
      match renderTemplate rest rec with
      | Except.error e => Except.error e
      | Except.ok out => Except.ok (htmlEscape s ++ out)

/-- One CSV row as produced by `csv.DictReader`: field name to value, where
`none` models a Python `None` cell (a short row's missing trailing value). -/
abbrev Row := List (String × Option String)

/-- Raw dictionary lookup: `some v` when the key is present with cell `v`. -/
def rawGet : Row → String → Option (Option String)
  | [], _ => none
  | p :: rest, k => if p.1 == k then some p.2 else rawGet rest k

/-- Python `row.get(k)` flattened: `none` when the key is absent or the cell
is `None`. -/
def rowGet (row : Row) (k : String) : Option String :=
  match rawGet row k with
  | none => none
  | some none => none
  | some (some s) => some s

/-- Python truthiness of `row.get("Email")`: present and non-empty. -/
def truthy : Option String → Bool
  | none => false
  | some s => !s.isEmpty

/-- `load_csv_data` (lines 56-66): keep exactly the rows whose `Email`
field is truthy, each kept row carried through unchanged. -/
def load_csv_data (rows : List Row) : List Row :=
  rows.filter (fun r => truthy (rowGet r "Email"))

/-- The sanitisation of line 101/141:
`{k: str(v) if v is not None else '' for k, v in row.items()}`. -/
def stringifyRow (row : Row) : List (String × String) :=
  row.map (fun p => (p.1, p.2.getD ""))

/-- Set a key in a string dictionary (Python `d[k] = v`): overwrite the
existing entry in place, or append a fresh one. -/
def setKey : List (String × String) → String → String → List (String × String)
  | [], k, v => [(k, v)]
  | p :: rest, k, v =>
    if p.1 == k then (p.1, v) :: rest else p :: setKey rest k v

/-- Lines 101-102 of `send_single_email`: sanitise the supplied data
mapping, then bind the explicit address under the key `Email`
(`safe_data['Email'] = self.single_email`). -/
def prepareSingleData (single_data : Row) (single_email : String) : List (String × String) :=
  setKey (stringifyRow single_data) "Email" single_email

/-- Lines 104-110 / 143-149 on an already-sanitised record: compile both
template sources, then render subject then body against the same record. -/
def renderPairData (hdrSrc bodySrc : String) (rec : List (String × String)) :
    Except String (String × String) :=
  match compileTemplate hdrSrc with
  | Except.error e => Except.error e
  | Except.ok ht =>
    match compileTemplate bodySrc with
    | Except.error e => Except.error e
    | Except.ok bt =>
      match renderTemplate ht rec with
      | Except.error (Rerr.undefinedVar v) => Except.error (v ++ " is undefined")
      | Except.ok subject =>
        match renderTemplate bt rec with
        | Except.error (Rerr.undefinedVar v) => Except.error (v ++ " is undefined")
        | Except.ok body => Except.ok (subject, body)

/-- The render stage of one batch iteration (lines 140-149): sanitise the
row, then compile and render both templates. -/
def renderPair (hdrSrc bodySrc : String) (row : Row) : Except String (String × String) :=
  renderPairData hdrSrc bodySrc (stringifyRow row)

/-- The outcome recorded for one recipient: a successful `send_message`, or
a caught per-recipient exception logged against `row.get("Email")`. -/
inductive Outcome where
  | delivered (email : String)
  | failed (email : Option String)
  deriving DecidableEq, Repr

/-- Whether an outcome is a recorded failure. -/
def isFailed : Outcome → Bool
  | Outcome.delivered _ => false
  | Outcome.failed _ => true

/-- The SMTP collaborator: whether the session establishes
(connect + STARTTLS + login), and the per-address result of one
`send_message` call. -/
structure SMTPBehavior where
  sessionOk : Bool
  deliverOk : String → Bool

/-- One iteration of the `for row in data` loop (lines 138-164): every
exception inside the loop body is caught, logged, and turned into a failed
outcome for this row only.  The second component records whether
`server.send_message` was reached. -/
def processRow (hdrSrc bodySrc : String) (deliver : String → Bool) (row : Row) :
    Outcome × Bool :=
  match renderPair hdrSrc bodySrc row with
  | Except.error _ => (Outcome.failed (rowGet row "Email"), false)
  | Except.ok _ =>
    match rowGet row "Email" with
    | none => (Outcome.failed none, false)
    | some e =>
      if deliver e then (Outcome.delivered e, true) else (Outcome.failed (some e), true)

/-- The observable result of one batch run. -/
structure BatchResult where
  outcomes : List Outcome
  sendAttempts : Nat
  exitCode : Nat
  deriving Repr

/-- `send_batch_emails` (lines 127-168): load and filter the rows, establish
the SMTP session once; on session failure, `sys.exit(1)` with no recipient
attempted; otherwise process every row in order, isolating per-row failures,
and complete normally (exit code 0). -/
def send_batch_emails (smtp : SMTPBehavior) (rows : List Row) (hdrSrc bodySrc : String) :
    BatchResult :=
  let data := load_csv_data rows
  if smtp.sessionOk then
    let results := data.map (processRow hdrSrc bodySrc smtp.deliverOk)
    { outcomes := results.map Prod.fst
      sendAttempts := (results.filter (fun r => r.2)).length
      exitCode := 0 }
  else
    { outcomes := [], sendAttempts := 0, exitCode := 1 }

/-- The observable result of one single-email run. -/
structure SingleResult where
  sent : Bool
  exitCode : Nat
  deriving DecidableEq, Repr

/-- `send_single_email` (lines 90-125): establish the session, prepare the
record from the data mapping and the explicit address, compile and render
both templates, and send; any exception in the `try` block is fatal
(`sys.exit(1)`). -/
def send_single_email (smtp : SMTPBehavior) (single_data : Row) (single_email : String)
    (hdrSrc bodySrc : String) : SingleResult :=
  if smtp.sessionOk then
    match renderPairData hdrSrc bodySrc (prepareSingleData single_data single_email) with
    | Except.error _ => { sent := false, exitCode := 1 }
    | Except.ok _ =>
      if smtp.deliverOk single_email then { sent := true, exitCode := 0 }
      else { sent := false, exitCode := 1 }
  else { sent := false, exitCode := 1 }

/-- The renders of both subject and body in single-email mode are evaluated
against the one prepared record (lines 109-110). -/
def send_single_render (hdrT bodyT : Template) (single_data : Row) (single_email : String) :
    Except Rerr String × Except Rerr String :=
  (renderTemplate hdrT (prepareSingleData single_data single_email),
   renderTemplate bodyT (prepareSingleData single_data single_email))

/-- A Python value produced by evaluating the `--data` argument. -/
inductive PyVal where
  | int (n : Nat)
  deriving DecidableEq, Repr

/-- Fuelled evaluation of a sum of decimal literals. -/
def pyEvalSum : Nat → List Char → Option Nat
  | fuel, cs =>
    let ds := cs.takeWhile Char.isDigit
    let rest := cs.dropWhile Char.isDigit
    if ds.isEmpty then none
    else
      let v := ds.foldl (fun a c => a * 10 + (c.toNat - 48)) 0
      match rest with
      | [] => some v
      | c :: rest2 =>
        if c = '+' then
          match fuel with
          | 0 => none
          | Nat.succ f => (pyEvalSum f rest2).map (fun w => v + w)
        else none

/-- The Python builtin `eval` applied to the externally supplied `--data`
string at line 220 (`single_data=eval(args.data)`), restricted to the
arithmetic-expression fragment needed here: `eval` parses its input as a
Python expression and evaluates it, so the input `1+1` yields the computed
integer `2` rather than a key-value mapping or a parse failure. -/
def pyEval (s : String) : Option PyVal :=
  (pyEvalSum s.data.length s.data).map PyVal.int

/-- The double-quote character (code point 34). -/
def quoteChar : Char := Char.ofNat 34

/-- Parse one double-quoted JSON string literal. -/
def parseJString : List Char → Option (String × List Char)
  | [] => none
  | c :: cs =>
    if c = quoteChar then
      let content := cs.takeWhile (fun d => !(d = quoteChar))
      let rest := cs.dropWhile (fun d => !(d = quoteChar))
      match rest with
      | d :: rest2 => if d = quoteChar then some (String.mk content, rest2) else none
      | [] => none
    else none

/-- Parse one `"key": "value"` member. -/
def parseMember (cs : List Char) : Option ((String × String) × List Char) :=
  match parseJString (skipSpaces cs) with
  | none => none
  | some (k, cs1) =>
    match skipSpaces cs1 with
    | c :: cs2 =>
      if c = ':' then
        match parseJString (skipSpaces cs2) with
        | none => none
        | some (v, cs3) => some ((k, v), cs3)
      else none
    | [] => none

/-- Parse a comma-separated member list. -/
def parseMembersAux : Nat → List Char → Option (List (String × String) × List Char)
  | 0, _ => none
  | Nat.succ fuel, cs =>
    match parseMember cs with
    | none => none
    | some (kv, cs1) =>
      match skipSpaces cs1 with
      | c :: cs2 =>
        if c = ',' then
          (parseMembersAux fuel cs2).map (fun r => (kv :: r.1, r.2))
        else some ([kv], c :: cs2)
      | [] => some ([kv], [])

/-- Modelled from the spec: the mandated replacement for the `eval` call of
line 220 — "a strict structured-data parser with no expression evaluation"
(spec §9) — as a strict JSON-object parse of string keys to string values:
it yields a plain key-value mapping or fails, and evaluates nothing. -/
def jsonParseData (s : String) : Option (List (String × String)) :=
  match skipSpaces s.data with
  | [] => none
  | c :: cs =>
    if c = openBrace then
      match skipSpaces cs with
      | [] => none
      | d :: ds =>
        if d = closeBrace then
          if (skipSpaces ds).isEmpty then some [] else none
        else
          match parseMembersAux cs.length cs with
          | none => none
          | some (kvs, rest) =>
            match skipSpaces rest with
            | e :: es =>
              if e = closeBrace && (skipSpaces es).isEmpty then some kvs else none
            | [] => none
    else none

/-! ## General helper lemmas -/

/-- Python truthiness of an optional string, characterised. -/
theorem truthy_iff (o : Option String) : truthy o = true ↔ ∃ s, o = some s ∧ s ≠ "" := by
  cases o with
  | none => simp [truthy]
  | some s => simp [truthy, Bool.eq_false_iff, Ne, String.isEmpty_iff]

/-- Writing a key into a string dictionary makes it readable back. -/
theorem lookupKey_setKey (l : List (String × String)) (k v : String) :
    lookupKey (setKey l k v) k = some v := by
  induction l with
  | nil => simp [setKey, lookupKey]
  | cons p rest ih =>
    cases h : p.1 == k with
    | true => simp [setKey, lookupKey, h]
    | false => simp [setKey, lookupKey, h, ih]

/-- `htmlEscapeL` distributes over append. -/
theorem htmlEscapeL_append (a b : List Char) :
    htmlEscapeL (a ++ b) = htmlEscapeL a ++ htmlEscapeL b := by
  induction a with
  | nil => simp [htmlEscapeL]
  | cons c cs ih => simp [htmlEscapeL, ih]

/-- Membership in an escaped stream comes from escaping some source char. -/
theorem mem_htmlEscapeL {a : Char} {l : List Char} :
    a ∈ htmlEscapeL l ↔ ∃ c ∈ l, a ∈ escChar c := by
  induction l with
  | nil => simp [htmlEscapeL]
  | cons c cs ih => simp [htmlEscapeL, ih]

/-- Escaping never emits a raw `<` or `>`. -/
theorem escChar_no_markup (c : Char) :
    Char.ofNat 60 ∉ escChar c ∧ Char.ofNat 62 ∉ escChar c := by
  unfold escChar
  split
  · exact ⟨by decide, by decide⟩
  · split
    · exact ⟨by decide, by decide⟩
    · split
      · exact ⟨by decide, by decide⟩
      · split
        · exact ⟨by decide, by decide⟩
        · split
          · exact ⟨by decide, by decide⟩
          · rename_i h1 h2 h3 h4 h5
            constructor
            · intro hh
              rw [List.mem_singleton] at hh
              subst hh
              exact h2 (by decide)
            · intro hh
              rw [List.mem_singleton] at hh
              subst hh
              exact h3 (by decide)

/-- Vars of a template starting with a literal part. -/
theorem vars_cons_lit (s : String) (rest : Template) :
    Template.vars (Part.lit s :: rest) = Template.vars rest := rfl

/-- Vars of a template starting with an interpolation. -/
theorem vars_cons_var (v : String) (rest : Template) :
    Template.vars (Part.var v :: rest) = v :: Template.vars rest := rfl

/-- Strict rendering succeeds whenever every referenced variable is bound. -/
theorem renderTemplate_ok_of_vars {t : Template} {rec : List (String × String)}
    (h : ∀ v ∈ Template.vars t, (lookupKey rec v).isSome) :
    ∃ out, renderTemplate t rec = Except.ok out := by
  induction t with
  | nil => exact ⟨"", rfl⟩
  | cons p rest ih =>
    cases p with
    | lit s =>
      obtain ⟨out, hout⟩ := ih (fun v hv => h v (by rw [vars_cons_lit]; exact hv))
      exact ⟨s ++ out, by simp [renderTemplate, hout]⟩
    | var v =>
      have hv : (lookupKey rec v).isSome := h v (by rw [vars_cons_var]; exact List.mem_cons_self ..)
      obtain ⟨s, hs⟩ := Option.isSome_iff_exists.mp hv
      obtain ⟨out, hout⟩ := ih
        (fun w hw => h w (by rw [vars_cons_var]; exact List.mem_cons_of_mem _ hw))
      exact ⟨htmlEscape s ++ out, by simp [renderTemplate, hs, hout]⟩

/-- Strict rendering fails with an error naming a missing referenced
variable whenever the record lacks one that the template references. -/
theorem renderTemplate_undefined {t : Template} {rec : List (String × String)} {v : String}
    (hv : v ∈ Template.vars t) (hm : lookupKey rec v = none) :
    ∃ w, renderTemplate t rec = Except.error (Rerr.undefinedVar w) ∧
      w ∈ Template.vars t ∧ lookupKey rec w = none := by
  induction t with
  | nil => simp [Template.vars] at hv
  | cons p rest ih =>
    cases p with
    | lit s =>
      rw [vars_cons_lit] at hv
      obtain ⟨w, hw, hw1, hw2⟩ := ih hv
      exact ⟨w, by simp [renderTemplate, hw], by rw [vars_cons_lit]; exact hw1, hw2⟩
    | var u =>
      rw [vars_cons_var] at hv
      cases hlu : lookupKey rec u with
      | none =>
        exact ⟨u, by simp [renderTemplate, hlu],
          by rw [vars_cons_var]; exact List.mem_cons_self .., hlu⟩
      | some su =>
        have hvrest : v ∈ Template.vars rest := by
          rcases List.mem_cons.mp hv with h | h
          · exfalso
            rw [← h, hm] at hlu
            cases hlu
          · exact h
        obtain ⟨w, hw, hw1, hw2⟩ := ih hvrest
        exact ⟨w, by simp [renderTemplate, hlu, hw],
          by rw [vars_cons_var]; exact List.mem_cons_of_mem _ hw1, hw2⟩

/-- The variable a strict-undefined error names is referenced and missing. -/
theorem renderTemplate_error_names {t : Template} {rec : List (String × String)} {w : String}
    (h : renderTemplate t rec = Except.error (Rerr.undefinedVar w)) :
    w ∈ Template.vars t ∧ lookupKey rec w = none := by
  induction t with
  | nil => cases h
  | cons p rest ih =>
    cases p with
    | lit s =>
      cases hr : renderTemplate rest rec with
      | error e =>
        rw [renderTemplate, hr] at h
        cases h
        obtain ⟨h1, h2⟩ := ih hr
        exact ⟨by rw [vars_cons_lit]; exact h1, h2⟩
      | ok out => rw [renderTemplate, hr] at h; cases h
    | var u =>
      cases hlu : lookupKey rec u with
      | none =>
        rw [renderTemplate, hlu] at h
        cases h
        exact ⟨by rw [vars_cons_var]; exact List.mem_cons_self .., hlu⟩
      | some su =>
        cases hr : renderTemplate rest rec with
        | error e =>
          rw [renderTemplate, hlu, hr] at h
          cases h
          obtain ⟨h1, h2⟩ := ih hr
          exact ⟨by rw [vars_cons_var]; exact List.mem_cons_of_mem _ h1, h2⟩
        | ok out => rw [renderTemplate, hlu, hr] at h; cases h

/-- A failed computation is a concrete `Except.error`. -/
theorem isErr_iff {ε α : Type} (x : Except ε α) : isErr x = true ↔ ∃ e, x = Except.error e := by
  cases x <;> simp [isErr]

/-- A compile failure of either template source fails the render stage. -/
theorem renderPairData_compile_error (hdrSrc bodySrc : String) (rec : List (String × String))
    (h : isErr (compileTemplate hdrSrc) = true ∨ isErr (compileTemplate bodySrc) = true) :
    isErr (renderPairData hdrSrc bodySrc rec) = true := by
  rcases h with h | h
  · obtain ⟨e, he⟩ := (isErr_iff _).mp h
    simp [renderPairData, he, isErr]
  · obtain ⟨e, he⟩ := (isErr_iff _).mp h
    cases hc : compileTemplate hdrSrc with
    | error e2 => simp [renderPairData, hc, isErr]
    | ok ht => simp [renderPairData, hc, he, isErr]

/-- A compile failure of either template source turns each batch iteration
into a recorded per-row failure with no `send_message` call. -/
theorem processRow_compile_error (hdrSrc bodySrc : String) (deliver : String → Bool) (row : Row)
    (h : isErr (compileTemplate hdrSrc) = true ∨ isErr (compileTemplate bodySrc) = true) :
    processRow hdrSrc bodySrc deliver row = (Outcome.failed (rowGet row "Email"), false) := by
  obtain ⟨e, he⟩ :=
    (isErr_iff _).mp (renderPairData_compile_error hdrSrc bodySrc (stringifyRow row) h)
  simp [processRow, renderPair, he]

/-! ## Claim theorems -/

/-- C4: the single-record `--data` parse of line 220 is not a strict
structured-data parse: Python `eval` evaluates the externally supplied
string as an expression — the input `1+1` evaluates to the computed integer
`2` instead of failing — whereas the spec-mandated strict parser rejects
that input and accepts only a plain key-value mapping (or `\x7b\x7d`). -/
theorem C4_eval_performs_expression_evaluation :
    pyEval "1+1" = some (PyVal.int 2) ∧
      jsonParseData "1+1" = none ∧
        jsonParseData "\x7b\x7d" = some [] :=
  ⟨by decide, by decide, by decide⟩

/-- C5: when SMTP session establishment (connect, STARTTLS, login) fails,
`send_batch_emails` aborts with zero `send_message` calls, zero recorded
outcomes, and the non-zero process exit code 1. -/
theorem C5_session_failure_aborts (deliver : String → Bool) (rows : List Row)
    (hdrSrc bodySrc : String) :
    send_batch_emails ⟨false, deliver⟩ rows hdrSrc bodySrc =
        { outcomes := [], sendAttempts := 0, exitCode := 1 } ∧
      (send_batch_emails ⟨false, deliver⟩ rows hdrSrc bodySrc).exitCode ≠ 0 :=
  ⟨rfl, Nat.one_ne_zero⟩

/-- C6: a CSV row is kept by `load_csv_data` if and only if it is a source
row whose `Email` field is present (and not `None`) and non-empty; kept rows
are the source rows themselves, every other field carried through verbatim.
Concretely, a 3-row source with one row missing the address yields exactly
2 records. -/
theorem C6_row_included_iff_email :
    (∀ (rows : List Row) (row : Row),
        row ∈ load_csv_data rows ↔
          row ∈ rows ∧ ∃ s, rowGet row "Email" = some s ∧ s ≠ "") ∧
      (load_csv_data
          [[("Email", some "a@x.com"), ("Name", some "Ada")],
           [("Name", some "Bo")],
           [("Email", some "c@x.com"), ("Name", some "Cy")]]).length = 2 := by
  constructor
  · intro rows row
    rw [load_csv_data, List.mem_filter, truthy_iff]
  · decide

/-- C9: in single-email mode the prepared record always binds the template
variable `Email` to the explicitly supplied address — even when the supplied
data mapping carries its own `Email` entry, the explicit address overwrites
it — and both the subject and the body render against that one record. -/
theorem C9_single_email_binding (d : Row) (e : String) :
    lookupKey (prepareSingleData d e) "Email" = some e ∧
      send_single_render [Part.var "Email"] [Part.var "Email"] d e =
        (Except.ok (htmlEscape e), Except.ok (htmlEscape e)) := by
  have h : lookupKey (prepareSingleData d e) "Email" = some e :=
    lookupKey_setKey (stringifyRow d) "Email" e
  refine ⟨h, ?_⟩
  simp [send_single_render, renderTemplate, h, String.append_empty]

/-- C7: with `autoescape=True`, every interpolated value is HTML-escaped:
the escaped stream never contains a raw `<` (code 60) or `>` (code 62); a
value containing `<` yields its escaped form `&lt;` in the output, a value
containing `&` (code 38) yields `&amp;`; and rendering substitutes exactly
the escaped value for an interpolation. -/
theorem C7_autoescape_on (s : String) :
    (Char.ofNat 60 ∉ (htmlEscape s).data ∧ Char.ofNat 62 ∉ (htmlEscape s).data) ∧
      (Char.ofNat 60 ∈ s.data → "&lt;".data <:+: (htmlEscape s).data) ∧
      (Char.ofNat 38 ∈ s.data → "&amp;".data <:+: (htmlEscape s).data) ∧
      ∀ (rec : List (String × String)) (v val pre post : String),
        lookupKey rec v = some val →
        renderTemplate [Part.lit pre, Part.var v, Part.lit post] rec =
          Except.ok (pre ++ htmlEscape val ++ post) := by
  refine ⟨⟨?_, ?_⟩, ?_, ?_, ?_⟩
  · intro hmem
    obtain ⟨c, _, hc⟩ := mem_htmlEscapeL.mp hmem
    exact (escChar_no_markup c).1 hc
  · intro hmem
    obtain ⟨c, _, hc⟩ := mem_htmlEscapeL.mp hmem
    exact (escChar_no_markup c).2 hc
  · intro hmem
    obtain ⟨l1, l2, hsplit⟩ := List.append_of_mem hmem
    refine ⟨htmlEscapeL l1, htmlEscapeL l2, ?_⟩
    have : htmlEscapeL s.data = htmlEscapeL l1 ++ ("&lt;".data ++ htmlEscapeL l2) := by
      rw [hsplit, htmlEscapeL_append]
      have he : escChar (Char.ofNat 60) = "&lt;".data := by decide
      rw [htmlEscapeL, he]
    rw [htmlEscape]
    rw [this, List.append_assoc]
  · intro hmem
    obtain ⟨l1, l2, hsplit⟩ := List.append_of_mem hmem
    refine ⟨htmlEscapeL l1, htmlEscapeL l2, ?_⟩
    have : htmlEscapeL s.data = htmlEscapeL l1 ++ ("&amp;".data ++ htmlEscapeL l2) := by
      rw [hsplit, htmlEscapeL_append]
      have he : escChar (Char.ofNat 38) = "&amp;".data := by decide
      rw [htmlEscapeL, he]
    rw [htmlEscape]
    rw [this, List.append_assoc]
  · intro rec v val pre post hlook
    simp [renderTemplate, hlook, String.append_empty, String.append_assoc]

/-- C7 witness: concrete markup-significant value. -/
theorem C7_autoescape_on_witness :
    (Char.ofNat 60 ∉ (htmlEscape "a<b&c").data ∧ Char.ofNat 62 ∉ (htmlEscape "a<b&c").data) ∧
      "&lt;".data <:+: (htmlEscape "a<b&c").data ∧
      "&amp;".data <:+: (htmlEscape "a<b&c").data ∧
      renderTemplate [Part.lit "x", Part.var "F", Part.lit "y"] [("F", "a<b&c")] =
        Except.ok ("x" ++ htmlEscape "a<b&c" ++ "y") := by
  have h := C7_autoescape_on "a<b&c"
  exact ⟨h.1, h.2.1 (by decide), h.2.2.1 (by decide),
    h.2.2.2 [("F", "a<b&c")] "F" "a<b&c" "x" "y" (by decide)⟩

/-- C8: when the record binds every variable the templates reference,
rendering succeeds; concretely the template source
`Hello \x7b\x7b Name \x7d\x7d` with the record
`Name = Ada, Email = a@x.com` compiles and renders subject `Hi` and
body `Hello Ada`, containing no placeholder marker. -/
theorem C8_render_success {t : Template} {rec : List (String × String)}
    (h : ∀ v ∈ Template.vars t, (lookupKey rec v).isSome) :
    (∃ out, renderTemplate t rec = Except.ok out) ∧
      renderPairData "Hi" "Hello \x7b\x7b Name \x7d\x7d" [("Name", "Ada"), ("Email", "a@x.com")] =
        Except.ok ("Hi", "Hello Ada") ∧
      openBrace ∉ "Hello Ada".data ∧ closeBrace ∉ "Hello Ada".data := by
  refine ⟨renderTemplate_ok_of_vars h, rfl, by decide, by decide⟩

/-- C8 witness: the scenario record binds every referenced variable. -/
theorem C8_render_success_witness :
    (∃ out,
        renderTemplate [Part.lit "Hello ", Part.var "Name", Part.lit ""]
          [("Name", "Ada"), ("Email", "a@x.com")] = Except.ok out) ∧
      renderPairData "Hi" "Hello \x7b\x7b Name \x7d\x7d" [("Name", "Ada"), ("Email", "a@x.com")] =
        Except.ok ("Hi", "Hello Ada") ∧
      openBrace ∉ "Hello Ada".data ∧ closeBrace ∉ "Hello Ada".data :=
  C8_render_success (by decide)

/-- C3: when the (sanitised) row lacks a variable that either compiled
template references, the failing render raises a strict-undefined error
naming a referenced-and-missing field, the recipient's outcome is the
logged failure, and `server.send_message` is never reached for that row. -/
theorem C3_missing_field_fails_named (hdrSrc bodySrc : String) (deliver : String → Bool)
    (row : Row) (ht bt : Template) (v : String)
    (hh : compileTemplate hdrSrc = Except.ok ht)
    (hb : compileTemplate bodySrc = Except.ok bt)
    (hv : v ∈ Template.vars ht ∨ v ∈ Template.vars bt)
    (hm : lookupKey (stringifyRow row) v = none) :
    (∃ t w, (t = ht ∨ t = bt) ∧
        renderTemplate t (stringifyRow row) = Except.error (Rerr.undefinedVar w) ∧
        w ∈ Template.vars t ∧ lookupKey (stringifyRow row) w = none) ∧
      processRow hdrSrc bodySrc deliver row = (Outcome.failed (rowGet row "Email"), false) := by
  cases hrh : renderTemplate ht (stringifyRow row) with
  | error e =>
    cases e with
    | undefinedVar w =>
      obtain ⟨h1, h2⟩ := renderTemplate_error_names hrh
      refine ⟨⟨ht, w, Or.inl rfl, hrh, h1, h2⟩, ?_⟩
      simp [processRow, renderPair, renderPairData, hh, hb, hrh]
  | ok subj =>
    have hvbt : v ∈ Template.vars bt := by
      rcases hv with h | h
      · obtain ⟨w, hw, _, _⟩ := renderTemplate_undefined h hm
        rw [hrh] at hw
        cases hw
      · exact h
    obtain ⟨w, hw, hw1, hw2⟩ := renderTemplate_undefined hvbt hm
    refine ⟨⟨bt, w, Or.inr rfl, hw, hw1, hw2⟩, ?_⟩
    simp [processRow, renderPair, renderPairData, hh, hb, hrh, hw]

/-- C3 witness: the spec scenario — body `Hello \x7b\x7b Name \x7d\x7d`,
record with only `Email` — fails naming `Name` and is never sent. -/
theorem C3_missing_field_fails_named_witness :
    (∃ t w, (t = [Part.lit "Hi"] ∨ t = [Part.lit "Hello ", Part.var "Name", Part.lit ""]) ∧
        renderTemplate t (stringifyRow [("Email", some "a@x.com")]) =
          Except.error (Rerr.undefinedVar w) ∧
        w ∈ Template.vars t ∧
        lookupKey (stringifyRow [("Email", some "a@x.com")]) w = none) ∧
      processRow "Hi" "Hello \x7b\x7b Name \x7d\x7d" (fun _ => true) [("Email", some "a@x.com")] =
        (Outcome.failed (rowGet [("Email", some "a@x.com")] "Email"), false) :=
  C3_missing_field_fails_named "Hi" "Hello \x7b\x7b Name \x7d\x7d" (fun _ => true)
    [("Email", some "a@x.com")] [Part.lit "Hi"] [Part.lit "Hello ", Part.var "Name", Part.lit ""]
    "Name" rfl rfl (Or.inr (by decide)) (by decide)

/-- C10: rendering is deterministic and idempotent — the compile-and-render
stage is a pure function of the (template sources, row) pair, so two renders
of the same pair yield byte-identical subject and body. -/
theorem C10_render_deterministic (hdrSrc bodySrc : String) (row : Row) :
    renderPair hdrSrc bodySrc row = renderPair hdrSrc bodySrc row ∧
      ∀ s1 b1 s2 b2,
        renderPair hdrSrc bodySrc row = Except.ok (s1, b1) →
        renderPair hdrSrc bodySrc row = Except.ok (s2, b2) →
        s1 = s2 ∧ b1 = b2 := by
  refine ⟨rfl, ?_⟩
  intro s1 b1 s2 b2 h1 h2
  rw [h1] at h2
  cases h2
  exact ⟨rfl, rfl⟩

/-- C10 witness: two renders of the scenario pair agree byte for byte. -/
theorem C10_render_deterministic_witness :
    ("Hi" : String) = "Hi" ∧ ("Hello Ada" : String) = "Hello Ada" :=
  (C10_render_deterministic "Hi" "Hello \x7b\x7b Name \x7d\x7d"
      [("Name", some "Ada"), ("Email", some "a@x.com")]).2
    "Hi" "Hello Ada" "Hi" "Hello Ada" rfl rfl

/-- C1 counterexample: a batch run whose subject template source is the
syntactically invalid `\x7b\x7b` does NOT abort with a non-zero exit before
processing recipients — the templates are compiled inside the per-recipient
`try` (lines 144-145), so the run processes its one recipient, records a
failure for it, and completes with exit code 0. -/
theorem C1_counterexample_compile_error_exit_zero :
    isErr (compileTemplate "\x7b\x7b") = true ∧
      (send_batch_emails ⟨true, fun _ => true⟩ [[("Email", some "a@x.com")]]
          "\x7b\x7b" "body").exitCode = 0 ∧
      (send_batch_emails ⟨true, fun _ => true⟩ [[("Email", some "a@x.com")]]
          "\x7b\x7b" "body").outcomes = [Outcome.failed (some "a@x.com")] :=
  ⟨by decide, by decide, by decide⟩

/-- C1 (amended): in batch mode a template compile error is caught inside
each per-recipient attempt: every valid recipient is processed and fails,
`send_message` is never called, and the run completes with exit code 0
rather than aborting; only in single-email mode is a compile error fatal
with a non-zero exit. -/
theorem C1_amended_compile_error_no_sends (smtp : SMTPBehavior) (rows : List Row)
    (hdrSrc bodySrc : String) (hs : smtp.sessionOk = true)
    (h : isErr (compileTemplate hdrSrc) = true ∨ isErr (compileTemplate bodySrc) = true) :
    (send_batch_emails smtp rows hdrSrc bodySrc).sendAttempts = 0 ∧
      (send_batch_emails smtp rows hdrSrc bodySrc).exitCode = 0 ∧
      (send_batch_emails smtp rows hdrSrc bodySrc).outcomes =
        (load_csv_data rows).map (fun row => Outcome.failed (rowGet row "Email")) ∧
      ∀ (d : Row) (e : String), send_single_email smtp d e hdrSrc bodySrc =
        { sent := false, exitCode := 1 } := by
  have hmap : (load_csv_data rows).map (processRow hdrSrc bodySrc smtp.deliverOk) =
      (load_csv_data rows).map (fun row => (Outcome.failed (rowGet row "Email"), false)) :=
    List.map_congr_left (fun row _ => processRow_compile_error hdrSrc bodySrc _ row h)
  refine ⟨?_, ?_, ?_, ?_⟩
  · simp [send_batch_emails, hs, hmap, List.filter_map, Function.comp]
  · simp [send_batch_emails, hs]
  · simp [send_batch_emails, hs, hmap, List.map_map, Function.comp]
  · intro d e
    obtain ⟨er, her⟩ := (isErr_iff _).mp
      (renderPairData_compile_error hdrSrc bodySrc (prepareSingleData d e) h)
    simp [send_single_email, hs, her]

/-- C1 (amended) witness: the counterexample inputs, end to end. -/
theorem C1_amended_compile_error_no_sends_witness :
    (send_batch_emails ⟨true, fun _ => true⟩ [[("Email", some "a@x.com")]]
        "\x7b\x7b" "body").sendAttempts = 0 ∧
      (send_batch_emails ⟨true, fun _ => true⟩ [[("Email", some "a@x.com")]]
          "\x7b\x7b" "body").exitCode = 0 ∧
      (send_batch_emails ⟨true, fun _ => true⟩ [[("Email", some "a@x.com")]]
          "\x7b\x7b" "body").outcomes =
        (load_csv_data [[("Email", some "a@x.com")]]).map
          (fun row => Outcome.failed (rowGet row "Email")) ∧
      send_single_email ⟨true, fun _ => true⟩ [] "z@x.com" "\x7b\x7b" "body" =
        { sent := false, exitCode := 1 } := by
  have h := C1_amended_compile_error_no_sends ⟨true, fun _ => true⟩
    [[("Email", some "a@x.com")]] "\x7b\x7b" "body" rfl (Or.inl (by decide))
  exact ⟨h.1, h.2.1, h.2.2.1, h.2.2.2 [] "z@x.com"⟩

/-- C2: failure isolation in a batch — with a working session, if
processing recipient `k` fails (render error or per-send delivery error)
while every other recipient's processing succeeds, then every recipient
still receives an outcome, the run completes with exit code 0, and the
failure is recorded at position `k` only. -/
theorem C2_failure_isolation (smtp : SMTPBehavior) (rows : List Row)
    (hdrSrc bodySrc : String) (k : Nat) (hs : smtp.sessionOk = true)
    (hk : k < (load_csv_data rows).length)
    (hfail : isFailed (processRow hdrSrc bodySrc smtp.deliverOk
        ((load_csv_data rows).get ⟨k, hk⟩)).1 = true)
    (hok : ∀ (j : Nat) (hj : j < (load_csv_data rows).length), j ≠ k →
        isFailed (processRow hdrSrc bodySrc smtp.deliverOk
          ((load_csv_data rows).get ⟨j, hj⟩)).1 = false) :
    (send_batch_emails smtp rows hdrSrc bodySrc).outcomes.length =
        (load_csv_data rows).length ∧
      (send_batch_emails smtp rows hdrSrc bodySrc).exitCode = 0 ∧
      ∀ (j : Nat) (hj : j < (send_batch_emails smtp rows hdrSrc bodySrc).outcomes.length),
        (isFailed ((send_batch_emails smtp rows hdrSrc bodySrc).outcomes.get ⟨j, hj⟩) = true ↔
          j = k) := by
  have hout : (send_batch_emails smtp rows hdrSrc bodySrc).outcomes =
      (load_csv_data rows).map
        (fun row => (processRow hdrSrc bodySrc smtp.deliverOk row).1) := by
    simp [send_batch_emails, hs, List.map_map, Function.comp]
  have hlen : (send_batch_emails smtp rows hdrSrc bodySrc).outcomes.length =
      (load_csv_data rows).length := by
    rw [hout, List.length_map]
  refine ⟨hlen, by simp [send_batch_emails, hs], ?_⟩
  intro j hj
  have hj2 : j < (load_csv_data rows).length := hlen ▸ hj
  have hget : (send_batch_emails smtp rows hdrSrc bodySrc).outcomes.get ⟨j, hj⟩ =
      (processRow hdrSrc bodySrc smtp.deliverOk ((load_csv_data rows).get ⟨j, hj2⟩)).1 := by
    rw [List.get_of_eq hout ⟨j, hj⟩]
    simp only [List.get_eq_getElem, List.getElem_map]
  rw [hget]
  constructor
  · intro hf
    by_contra hne
    rw [hok j hj2 hne] at hf
    cases hf
  · intro hjk
    subst hjk
    exact hfail

/-- C2 witness: three valid recipients, the middle one missing the `Name`
field the body references — both neighbours are still delivered. -/
theorem C2_failure_isolation_witness :
    (send_batch_emails ⟨true, fun _ => true⟩
        [[("Email", some "a@x.com"), ("Name", some "Ada")],
         [("Email", some "b@x.com")],
         [("Email", some "c@x.com"), ("Name", some "Cy")]]
        "Hi" "Hello \x7b\x7b Name \x7d\x7d").outcomes.length =
      (load_csv_data
        [[("Email", some "a@x.com"), ("Name", some "Ada")],
         [("Email", some "b@x.com")],
         [("Email", some "c@x.com"), ("Name", some "Cy")]]).length ∧
    (send_batch_emails ⟨true, fun _ => true⟩
        [[("Email", some "a@x.com"), ("Name", some "Ada")],
         [("Email", some "b@x.com")],
         [("Email", some "c@x.com"), ("Name", some "Cy")]]
        "Hi" "Hello \x7b\x7b Name \x7d\x7d").exitCode = 0 ∧
    ∀ (j : Nat) (hj : j < (send_batch_emails ⟨true, fun _ => true⟩
        [[("Email", some "a@x.com"), ("Name", some "Ada")],
         [("Email", some "b@x.com")],
         [("Email", some "c@x.com"), ("Name", some "Cy")]]
        "Hi" "Hello \x7b\x7b Name \x7d\x7d").outcomes.length),
      (isFailed ((send_batch_emails ⟨true, fun _ => true⟩
        [[("Email", some "a@x.com"), ("Name", some "Ada")],
         [("Email", some "b@x.com")],
         [("Email", some "c@x.com"), ("Name", some "Cy")]]
        "Hi" "Hello \x7b\x7b Name \x7d\x7d").outcomes.get ⟨j, hj⟩) = true ↔ j = 1) :=
  C2_failure_isolation ⟨true, fun _ => true⟩
    [[("Email", some "a@x.com"), ("Name", some "Ada")],
     [("Email", some "b@x.com")],
     [("Email", some "c@x.com"), ("Name", some "Cy")]]
    "Hi" "Hello \x7b\x7b Name \x7d\x7d" 1 rfl (by decide) (by decide) (by decide)

end PaperCo
